import Mathlib

/-!
Shallow embedding of the justsecuritybackend HTTP API routes.

Each route handler is translated into a pure Lean function over an explicit
database state (`DB`).  External effects (push delivery, bcrypt comparison,
vendor HTTP calls, Redis availability) are passed in as explicit parameters,
so every handler is a deterministic function of its inputs.  Machine-generated
identifiers (row ids, UUIDs) are likewise taken as parameters.

Sources embedded here:
  - app/api/device/command/route.ts   (anti-theft command dispatch)
  - app/api/device/location/route.ts  (LOCATE follow-up)
  - app/api/device/register/route.ts  (device + push-token upsert)
  - app/api/scan/hash-check/route.ts  (cache-aside hash lookup)
  - app/api/scan/report/route.ts      (scan report -> quarantine + telemetry)
  - app/api/payment/verify/route.ts   (verifyAppleReceipt)
  - app/api/url/classify/route.ts     (URL classification)
  - app/api/auth/email-login/route.ts (email login)
  - lib/rate-limit.ts                 (sliding-window rate limiter Lua script)
-/

namespace JustSec

/-- Lifecycle status of an anti-theft command (Prisma `CommandStatus`). -/
inductive CommandStatus
  | PENDING
  | SENT
  | EXECUTED
  | FAILED
deriving DecidableEq

/-- Anti-theft command type (Prisma `AntiTheftCommandType`). -/
inductive CommandType
  | LOCATE
  | RING
  | LOCK
  | WIPE
deriving DecidableEq

/-- Threat signature type (Prisma `ThreatType`). -/
inductive SigType
  | HASH
  | PACKAGE
  | URL
  | BEHAVIOR
deriving DecidableEq

/-- Mobile platform as sent by clients (zod enum `['ios','android']`). -/
inductive MobilePlatform
  | ios
  | android
deriving DecidableEq

/-- GPS fix reported by the device (zod `LocationSchema` payload fields).
Coordinates are validated numbers; their values never influence control flow,
so they are represented as integers. -/
structure LocationFix where
  latitude : Int
  longitude : Int
  accuracy : Int
  timestamp : String
deriving DecidableEq

/-- Anti-theft command metadata: optional lockMessage/phoneNumber from the
request schema, plus the location object merged in by the location route. -/
structure CommandMetadata where
  lockMessage : Option String := none
  phoneNumber : Option String := none
  location : Option LocationFix := none
deriving DecidableEq

/-- User row (fields used by the embedded routes). -/
structure User where
  id : String
  email : String
  name : Option String := none
  passwordHash : Option String := none
deriving DecidableEq

/-- Device row.  `id` is the database primary key, `deviceId` the unique
client-supplied identifier used as the upsert key. -/
structure Device where
  id : String
  deviceId : String
  userId : String
  deviceName : String
  platform : MobilePlatform
  osVersion : String
  appVersion : String
  lastSeen : Int
  isActive : Bool
deriving DecidableEq

/-- Push token row.  `token` is unique; `platform` is the provider string
written by the register route (`apns` or `fcm`). -/
structure PushToken where
  id : String
  token : String
  deviceId : String
  platform : String
  isActive : Bool
deriving DecidableEq

/-- Anti-theft command row. -/
structure AntiTheftCommand where
  id : String
  deviceId : String
  commandType : CommandType
  status : CommandStatus
  issuedBy : String
  metadata : CommandMetadata
  executedAt : Option Int := none
deriving DecidableEq

/-- Threat signature row (fields selected by the hash-check route). -/
structure ThreatSignature where
  signature : String
  type : SigType
  isActive : Bool
  threatName : Option String := none
  severity : Option String := none
  category : Option String := none
deriving DecidableEq

/-- Per-hash result object returned by the hash-check route. -/
structure ThreatResult where
  hash : String
  isThreat : Bool
  threatName : Option String := none
  severity : Option String := none
  category : Option String := none
deriving DecidableEq

/-- Severity of a reported threat (zod enum in the scan-report schema). -/
inductive Severity
  | low
  | medium
  | high
  | critical
deriving DecidableEq

/-- Threat entry of a scan report (`threats[]` array element). -/
structure ThreatEntry where
  fileName : String
  filePath : String
  fileHash : String
  threatName : String
  severity : Severity
deriving DecidableEq

/-- Quarantine row as created by the scan-report route (`createMany` data).
The database-assigned row id is not observed by any route, so it is omitted. -/
structure Quarantine where
  deviceId : String
  fileName : String
  filePath : String
  fileSize : Nat
  fileHash : String
  threatName : String
  threatSignatureId : String
  severity : Severity
  status : String
deriving DecidableEq

/-- Scan type (zod enum in the scan-report schema). -/
inductive ScanType
  | quick
  | full
  | custom
deriving DecidableEq

/-- Scan completion status (zod enum in the scan-report schema). -/
inductive ScanStatus
  | completed
  | failed
  | cancelled
deriving DecidableEq

/-- Scan log row created by the scan-report route. -/
structure ScanLog where
  id : String
  deviceId : String
  scanType : ScanType
  status : ScanStatus
  filesScanned : Nat
  threatsFound : Nat
  startedAt : Int
  completedAt : Option Int
  duration : Option Int
  metadataThreats : Option (List ThreatEntry)
deriving DecidableEq

/-- Event payload of a telemetry row.  One constructor per call site, with
exactly the fields each route writes into `eventData`. -/
inductive TelemetryData
  | commandIssued (commandType : CommandType) (deviceId : String) (success : Bool)
  | threatsDetected (deviceId : String) (count : Nat)
  | scanCompleted (scanType : ScanType) (filesScanned : Nat) (threatsFound : Nat) (duration : Int)
  | emailLogin (deviceId : String) (platform : MobilePlatform)
deriving DecidableEq

/-- Telemetry log row. -/
structure TelemetryLog where
  userId : String
  eventType : String
  eventData : TelemetryData
deriving DecidableEq

/-- Subscription row (fields used by the email-login route). -/
structure Subscription where
  userId : String
  tier : String
  status : String
  platform : MobilePlatform
  trialEndsAt : Option Int := none
  currentPeriodStart : Int
  currentPeriodEnd : Int
deriving DecidableEq

/-- The relational store: one list of rows per entity. -/
structure DB where
  users : List User := []
  devices : List Device := []
  pushTokens : List PushToken := []
  commands : List AntiTheftCommand := []
  sigs : List ThreatSignature := []
  quarantines : List Quarantine := []
  scanLogs : List ScanLog := []
  telemetry : List TelemetryLog := []
  subscriptions : List Subscription := []
deriving DecidableEq

/-! ## app/api/device/command/route.ts -/

/-- Request body of POST /api/device/command after zod validation
(`DeviceCommandSchema`); the route maps the lowercase command type through
`COMMAND_TYPE_MAP`, so the validated type is represented directly. -/
structure CommandRequest where
  deviceId : String
  commandType : CommandType
  metadata : CommandMetadata
deriving DecidableEq

/-- Outcome of one `admin.messaging().send` call for one push token. -/
inductive PushOutcome
  | success
  | invalidToken
  | otherError
deriving DecidableEq

/-- Response of the device-command route, one constructor per return site. -/
inductive CommandResp
  | rateLimited
  | deviceNotFound
  | noActiveTokens
  | ok (commandId : String) (status : CommandStatus) (pushesSent : Nat)
deriving DecidableEq

/-- HTTP status code attached to each device-command response. -/
def CommandResp.httpStatus : CommandResp → Nat
  | .rateLimited => 429
  | .deviceNotFound => 404
  | .noActiveTokens => 400
  | .ok _ _ _ => 200

/-- Active push tokens of a device row, as loaded by the route's
`include: pushTokens where isActive` clause. -/
def activePushTokens (db : DB) (deviceRowId : String) : List PushToken :=
  db.pushTokens.filter (fun t => t.deviceId == deviceRowId && t.isActive)

/-- Device lookup of the command route: row id, owner and `isActive` filter. -/
def findOwnedActiveDevice (db : DB) (userId devId : String) : Option Device :=
  db.devices.find? (fun d => d.id == devId && d.userId == userId && d.isActive)

/-- POST /api/device/command.  `rateOk` is the rate limiter verdict,
`newId` the database-assigned command row id, `push` the provider outcome
for each token.  Returns the response and the new database state. -/
def deviceCommandPost (db : DB) (rateOk : Bool) (userId : String)
    (req : CommandRequest) (newId : String) (push : PushToken → PushOutcome) :
    CommandResp × DB :=
  if !rateOk then (.rateLimited, db) else
  match findOwnedActiveDevice db userId req.deviceId with
  | none => (.deviceNotFound, db)
  | some device =>
    let tokens := activePushTokens db device.id
    if tokens.isEmpty then (.noActiveTokens, db) else
    -- create command record in PENDING
    let command : AntiTheftCommand :=
      { id := newId, deviceId := device.id, commandType := req.commandType,
        status := .PENDING, issuedBy := userId, metadata := req.metadata }
    let db1 : DB := { db with commands := db.commands ++ [command] }
    -- push fan-out; tokens the provider reports invalid are deactivated
    let db2 : DB :=
      { db1 with pushTokens := db1.pushTokens.map (fun t =>
          if t.deviceId == device.id && t.isActive && push t == PushOutcome.invalidToken
          then { t with isActive := false } else t) }
    let successfulPushes := tokens.countP (fun t => push t == PushOutcome.success)
    -- any success flips the command to SENT, zero successes to FAILED
    let finalStatus : CommandStatus := if successfulPushes > 0 then .SENT else .FAILED
    let db3 : DB :=
      { db2 with commands := db2.commands.map (fun c =>
          if c.id == command.id then { c with status := finalStatus } else c) }
    let db4 : DB :=
      { db3 with telemetry := db3.telemetry ++
          [{ userId := userId, eventType := "anti_theft_command_issued",
             eventData := .commandIssued req.commandType device.id (successfulPushes > 0) }] }
    (.ok command.id finalStatus successfulPushes, db4)

/-! ## app/api/device/location/route.ts -/

/-- Request body of POST /api/device/location after zod validation. -/
structure LocationRequest where
  deviceId : String
  commandId : String
  fix : LocationFix
deriving DecidableEq

/-- Response of the location route. -/
inductive LocationResp
  | deviceNotFound
  | commandNotFound
  | ok (commandId : String)
deriving DecidableEq

/-- Command lookup of the location route: note it filters on id, device and
`commandType: LOCATE` but places no condition on the current status. -/
def findLocateCommand (db : DB) (commandId deviceRowId : String) :
    Option AntiTheftCommand :=
  db.commands.find? (fun c =>
    c.id == commandId && c.deviceId == deviceRowId && c.commandType == CommandType.LOCATE)

/-- POST /api/device/location.  `now` models `new Date()` for `executedAt`. -/
def locationPost (db : DB) (userId : String) (req : LocationRequest) (now : Int) :
    LocationResp × DB :=
  match db.devices.find? (fun d => d.id == req.deviceId && d.userId == userId) with
  | none => (.deviceNotFound, db)
  | some device =>
    match findLocateCommand db req.commandId device.id with
    | none => (.commandNotFound, db)
    | some command =>
      -- status EXECUTED; location spread-merged over the existing metadata
      let db2 : DB :=
        { db with commands := db.commands.map (fun c =>
            if c.id == command.id then
              { c with status := .EXECUTED, executedAt := some now,
                       metadata := { command.metadata with location := some req.fix } }
            else c) }
      (.ok command.id, db2)

/-! ## app/api/device/register/route.ts -/

/-- Request body of POST /api/device/register (`RegisterDeviceSchema`). -/
structure RegisterRequest where
  deviceId : String
  deviceName : String
  platform : MobilePlatform
  osVersion : String
  appVersion : String
  pushToken : Option String := none
deriving DecidableEq

/-- Response of the register route. -/
inductive RegisterResp
  | rateLimited
  | deviceConflict
  | tokenConflict
  | ok (deviceRowId : String)
deriving DecidableEq

/-- HTTP status code of each register response: both ownership conflicts are
thrown as errors whose messages map to 403 in the catch block. -/
def RegisterResp.httpStatus : RegisterResp → Nat
  | .rateLimited => 429
  | .deviceConflict => 403
  | .tokenConflict => 403
  | .ok _ => 200

/-- Push provider string written by the register route. -/
def tokenPlatform : MobilePlatform → String
  | .ios => "apns"
  | .android => "fcm"

/-- The `update` data of the register route's device upsert: metadata fields
only, never the user binding. -/
def applyDeviceUpdate (req : RegisterRequest) (now : Int) (x : Device) : Device :=
  { x with deviceName := req.deviceName, osVersion := req.osVersion,
           appVersion := req.appVersion, lastSeen := now, isActive := true }

/-- POST /api/device/register.  `now` models `new Date()`; `newDevId` and
`newTokId` are the database-assigned row ids used on the create branches.
The device upsert is NOT inside the push-token transaction, so its effect
persists even when the ownership check then throws. -/
def deviceRegisterPost (db : DB) (rateOk : Bool) (userId : String)
    (req : RegisterRequest) (now : Int) (newDevId newTokId : String) :
    RegisterResp × DB :=
  if !rateOk then (.rateLimited, db) else
  -- prisma.device.upsert on the unique key deviceId
  let devPair : Device × List Device :=
    match db.devices.find? (fun d => d.deviceId == req.deviceId) with
    | some d =>
      (applyDeviceUpdate req now d, db.devices.map (fun x =>
        if x.deviceId == req.deviceId then applyDeviceUpdate req now x else x))
    | none =>
      let created : Device :=
        { id := newDevId, deviceId := req.deviceId, userId := userId,
          deviceName := req.deviceName, platform := req.platform,
          osVersion := req.osVersion, appVersion := req.appVersion,
          lastSeen := now, isActive := true }
      (created, db.devices ++ [created])
  let device := devPair.1
  let db1 : DB := { db with devices := devPair.2 }
  -- ownership check runs after the upsert has already been committed
  if device.userId != userId then (.deviceConflict, db1) else
  match req.pushToken with
  | none => (.ok device.id, db1)
  | some tok =>
    -- prisma.$transaction: find token with its device, check the owner
    let existingToken : Option PushToken := db1.pushTokens.find? (fun t => t.token == tok)
    let owner : Option Device :=
      existingToken.bind (fun t => db1.devices.find? (fun d => d.id == t.deviceId))
    let conflict : Bool :=
      match existingToken, owner with
      | some _, some od => od.userId != userId
      | _, _ => false
    if conflict then (.tokenConflict, db1) else
    -- tx.pushToken.upsert on the unique key token
    let tokens2 : List PushToken :=
      match existingToken with
      | some _ => db1.pushTokens.map (fun t =>
          if t.token == tok then
            { t with deviceId := device.id, platform := tokenPlatform req.platform,
                     isActive := true }
          else t)
      | none => db1.pushTokens ++
          [{ id := newTokId, token := tok, deviceId := device.id,
             platform := tokenPlatform req.platform, isActive := true }]
    (.ok device.id, { db1 with pushTokens := tokens2 })

/-! ## app/api/scan/hash-check/route.ts

The route file as checked in is missing one closing brace (50 opening `{`
against 49 closing `}` in `route.ts`); the evidently intended structure,
embedded here, closes the `if (uncachedHashes.length > 0)` block right after
`await pipeline.exec()`, so that the telemetry write and the response are
produced for fully-cached batches as well. -/

/-- Redis cache key for a hash. -/
def threatKey (h : String) : String := "threat:" ++ h

/-- Cache contents as an association list from key to stored result. -/
def Cache := List (String × ThreatResult)

/-- MGET of a single key. -/
def cacheGet (cache : Cache) (k : String) : Option ThreatResult :=
  (List.find? (fun e => e.1 == k) cache).map (fun e => e.2)

/-- The `validated.hashes.forEach` loop: cached results are pushed to
`results` in batch order, cache misses are collected into `uncachedHashes`. -/
def splitCached (cache : Cache) (hashes : List String) :
    List ThreatResult × List String :=
  hashes.foldl
    (fun acc h =>
      match cacheGet cache (threatKey h) with
      | some r => (acc.1 ++ [r], acc.2)
      | none => (acc.1, acc.2 ++ [h]))
    ([], [])

/-- Database resolution of one hash: `threatSignature.findMany` restricted to
`type: HASH, isActive: true` (the signature column is unique, so the first
match is the row the route's `threatMap` yields). -/
def storeLookup (store : List ThreatSignature) (h : String) : ThreatResult :=
  match store.find? (fun s => s.signature == h && s.type == SigType.HASH && s.isActive) with
  | some t =>
    { hash := h, isThreat := true, threatName := t.threatName,
      severity := t.severity, category := t.category }
  | none => { hash := h, isThreat := false }

/-- Whether a hash is present in the signature store as an active HASH row. -/
def inStore (store : List ThreatSignature) (h : String) : Bool :=
  store.any (fun s => s.signature == h && s.type == SigType.HASH && s.isActive)

/-- Connection state of the Redis cache for one request: stored data plus
whether the initial MGET and the final pipeline EXEC calls fail. -/
structure CacheConn where
  data : Cache
  mgetFails : Bool
  execFails : Bool

/-- Successful response data of the hash-check route:
results, scanned count, threatsFound count. -/
structure HashCheckData where
  results : List ThreatResult
  scanned : Nat
  threatsFound : Nat
deriving DecidableEq

/-- Response of the hash-check route: either the success envelope or the
HTTP status produced by the outer catch block. -/
inductive HashCheckResp
  | serverError (status : Nat)
  | ok (data : HashCheckData)
deriving DecidableEq

/-- POST /api/scan/hash-check, after auth/rate-limit/device checks.
`serverError 500` models an exception escaping to the outer catch, which
answers status 500.  A failing MGET is caught and degrades to resolving every
hash from the store; the later `pipeline.exec()` has no such guard, so its
failure aborts the request. -/
def hashCheckPost (conn : CacheConn) (store : List ThreatSignature)
    (hashes : List String) : HashCheckResp :=
  let (cachedRes, uncached) :=
    if conn.mgetFails then ([], hashes) else splitCached conn.data hashes
  if uncached.length > 0 then
    let results := cachedRes ++ uncached.map (storeLookup store)
    if conn.execFails then .serverError 500
    else .ok { results := results, scanned := hashes.length,
               threatsFound := results.countP (fun r => r.isThreat) }
  else
    .ok { results := cachedRes, scanned := hashes.length,
          threatsFound := cachedRes.countP (fun r => r.isThreat) }

/-! ## app/api/payment/verify/route.ts : verifyAppleReceipt -/

/-- One `latest_receipt_info` entry.  `expiresDateMs` is the parsed value of
the `expires_date_ms` string when the field is present, `none` when absent
(the route treats an absent field as `undefined`, and `parseInt(x || '0')`
as 0 inside the reduce comparison). -/
structure LatestReceiptEntry where
  expiresDateMs : Option Nat := none
deriving DecidableEq

/-- Parsed JSON body of an App Store verifyReceipt response, restricted to
the fields the route reads. -/
structure AppleResponse where
  status : Int
  originalTransactionId : Option String := none
  latestReceiptInfo : Option (List LatestReceiptEntry) := none
deriving DecidableEq

/-- VerificationResult interface of the payment route. -/
structure VerificationResult where
  valid : Bool
  subscriptionId : String
  expiryDate : Option Nat := none
deriving DecidableEq

/-- The `latest_receipt_info?.reduce` call of the sandbox path: JS
`Array.prototype.reduce` without an initial value, keeping whichever of the
accumulator and the current entry has the greater `expires_date_ms`
(missing fields compare as 0).  On an empty array JS `reduce` throws; that
case is handled at the caller. -/
def reduceLatest : List LatestReceiptEntry → Option LatestReceiptEntry
  | [] => none
  | x :: xs => some (xs.foldl
      (fun latest current =>
        if current.expiresDateMs.getD 0 > latest.expiresDateMs.getD 0
        then current else latest)
      x)

/-- Result assembled from the sandbox verifyReceipt response.  When
`latest_receipt_info` is the empty array, the `reduce` call throws a
TypeError that propagates to the outer catch, which returns
`valid: false`. -/
def verifyAppleSandbox (sandboxData : AppleResponse) : VerificationResult :=
  match sandboxData.latestReceiptInfo with
  | some [] => { valid := false, subscriptionId := "" }
  | info =>
    let latestReceipt := info.bind reduceLatest
    { valid := sandboxData.status == 0,
      subscriptionId := sandboxData.originalTransactionId.getD "",
      expiryDate := latestReceipt.bind (fun e => e.expiresDateMs) }

/-- verifyAppleReceipt.  `data` is the parsed production-endpoint response;
`sandbox` is the parsed sandbox-endpoint response when that second call
succeeds, `none` when the sandbox fetch or JSON parse fails (in which case
the outer catch returns `valid: false`).  Note the production path reads
`latest_receipt_info?.[0]` — the first entry — while only the sandbox path
reduces the entries by greatest expiry. -/
def verifyAppleReceipt (data : AppleResponse) (sandbox : Option AppleResponse) :
    VerificationResult :=
  if data.status == 21007 then
    match sandbox with
    | none => { valid := false, subscriptionId := "" }
    | some sd => verifyAppleSandbox sd
  else
    { valid := data.status == 0,
      subscriptionId := data.originalTransactionId.getD "",
      expiryDate := (data.latestReceiptInfo.bind List.head?).bind
        (fun e => e.expiresDateMs) }

/-- Modelled from the spec sentence for the refinement comparison: the
greatest `expires_date_ms` value among a response's latest-receipt entries. -/
def specGreatestExpiry (entries : List LatestReceiptEntry) : Nat :=
  entries.foldl (fun m e => max m (e.expiresDateMs.getD 0)) 0

/-! ## lib/rate-limit.ts

The Lua script keeps one sorted-set entry per accepted request, scored by its
arrival time in milliseconds.  Every member added by `ZADD` is unique (the
member string appends an INCR counter), so the set is faithfully a list of
scores.  `EXPIRE key window` only ever discards entries that
`ZREMRANGEBYSCORE` would also discard at the next call, so key expiry needs
no separate modelling. -/

/-- One run of the rate-limit Lua script over the entry list of one key.
Returns the new entry list, the success flag and the remaining quota.
`ZREMRANGEBYSCORE key 0 windowStart` drops scores in `[0, now - window*1000]`;
a rejected request adds no entry. -/
def rateLimitStep (entries : List Int) (now : Int) (window limit : Nat) :
    List Int × Bool × Nat :=
  let windowStart : Int := now - (window * 1000 : Nat)
  let kept := entries.filter (fun s => !(0 ≤ s && s ≤ windowStart))
  let currentCount := kept.length
  if limit ≤ currentCount then (kept, false, 0)
  else (kept ++ [now], true, limit - currentCount - 1)

/-- Sequential runs of the rate limiter for one identifier, one request per
listed arrival time; returns the final entry list and each verdict. -/
def runRateLimit (window limit : Nat) (entries : List Int) :
    List Int → List Int × List Bool
  | [] => (entries, [])
  | t :: ts =>
    let r := rateLimitStep entries t window limit
    let rest := runRateLimit window limit r.1 ts
    (rest.1, r.2.1 :: rest.2)

/-! ## app/api/scan/report/route.ts -/

/-- Request body of POST /api/scan/report after zod validation. -/
structure ScanReport where
  deviceId : String
  scanType : ScanType
  status : ScanStatus
  filesScanned : Nat
  threatsFound : Nat
  startedAt : Int
  completedAt : Option Int := none
  threats : Option (List ThreatEntry) := none
deriving DecidableEq

/-- Response of the scan-report route. -/
inductive ScanReportResp
  | deviceNotFound
  | invalidTimestamps
  | ok (scanLogId : String)
deriving DecidableEq

/-- Quarantine row built for one reported threat (`createMany` data item);
`uuid` models the `randomUUID()` value used for `threatSignatureId`. -/
def mkQuarantine (deviceRowId : String) (uuid : String) (t : ThreatEntry) : Quarantine :=
  { deviceId := deviceRowId, fileName := t.fileName, filePath := t.filePath,
    fileSize := 0, fileHash := t.fileHash, threatName := t.threatName,
    threatSignatureId := uuid, severity := t.severity, status := "QUARANTINED" }

/-- POST /api/scan/report, after auth.  `now` models `new Date()` used when
`completedAt` is absent; `newScanLogId` the scan-log row id; `uuid i` the
`randomUUID()` drawn for the i-th quarantine row. -/
def scanReportPost (db : DB) (userId : String) (req : ScanReport) (now : Int)
    (newScanLogId : String) (uuid : Nat → String) : ScanReportResp × DB :=
  match db.devices.find? (fun d => d.id == req.deviceId && d.userId == userId) with
  | none => (.deviceNotFound, db)
  | some device =>
    let startedAt := req.startedAt
    let completedAt := req.completedAt.getD now
    if startedAt > completedAt then (.invalidTimestamps, db) else
    let duration := completedAt - startedAt
    let scanLog : ScanLog :=
      { id := newScanLogId, deviceId := device.id, scanType := req.scanType,
        status := req.status, filesScanned := req.filesScanned,
        threatsFound := req.threatsFound, startedAt := startedAt,
        completedAt := if req.status == ScanStatus.completed then some completedAt else none,
        duration := if req.status == ScanStatus.completed then some duration else none,
        metadataThreats := req.threats }
    let newQuarantines : List Quarantine :=
      match req.threats with
      | some ts =>
        if ts.length > 0 then ts.enum.map (fun p => mkQuarantine device.id (uuid p.1) p.2)
        else []
      | none => []
    let newTelemetry : TelemetryLog :=
      { userId := userId, eventType := "scan_completed",
        eventData := .scanCompleted req.scanType req.filesScanned req.threatsFound duration }
    (.ok newScanLogId,
      { db with scanLogs := db.scanLogs ++ [scanLog],
                quarantines := db.quarantines ++ newQuarantines,
                telemetry := db.telemetry ++ [newTelemetry] })

/-! ## app/api/url/classify/route.ts -/

/-- Whether `p` is an initial segment of `s` (character lists). -/
def charsLeading : List Char → List Char → Bool
  | [], _ => true
  | _ :: _, [] => false
  | p :: ps, c :: cs => p == c && charsLeading ps cs

/-- Whether the character list `s` contains `p` as a contiguous segment. -/
def charsContain (s p : List Char) : Bool :=
  match s with
  | [] => charsLeading p []
  | _ :: t => charsLeading p s || charsContain t p

/-- JS `String.prototype.includes`: substring containment test. -/
def strIncludes (s pat : String) : Bool :=
  charsContain s.data pat.data

/-- Outcome of the Safe Browsing fetch inside classifyUrlWithThreatIntel. -/
inductive FetchOutcome
  | matches (threatType : String)
  | noMatches
  | failure
deriving DecidableEq

/-- Classification object returned to the client. -/
structure Classification where
  isSafe : Bool
  category : Option String := none
  reason : Option String := none
deriving DecidableEq

/-- classifyUrlWithThreatIntel.  Throws (as `Except.error` with the thrown
message) when the API key is missing — before its internal try block — and
otherwise fails open to `isSafe: true` on any fetch error. -/
def classifyUrlWithThreatIntel (apiKey : Option String) (fetch : FetchOutcome) :
    Except String Classification :=
  match apiKey with
  | none => .error "GOOGLE_SAFE_BROWSING_KEY is not configured"
  | some _ =>
    match fetch with
    | .matches t =>
      .ok { isSafe := false, category := some t,
            reason := "This URL is flagged as " ++ t }
    | .noMatches => .ok { isSafe := true }
    | .failure => .ok { isSafe := true }

/-- Response envelope of the url-classify route. -/
inductive ClassifyResp
  | unauthorized
  | success (c : Classification)
deriving DecidableEq

/-- POST /api/url/classify.  `auth` and `parsed` carry the thrown message on
failure.  The catch block returns a response only when the error message
includes the substring Unauthorized; on every other error it falls through
without returning, modelled as `none`. -/
def urlClassifyPost (auth : Except String Unit) (parsed : Except String String)
    (apiKey : Option String) (fetch : FetchOutcome) : Option ClassifyResp :=
  let run : Except String Classification := do
    let _ ← auth
    let url ← parsed
    let _ := url
    classifyUrlWithThreatIntel apiKey fetch
  match run with
  | .ok c => some (.success c)
  | .error m => if strIncludes m "Unauthorized" then some .unauthorized else none

/-! ## app/api/auth/email-login/route.ts -/

/-- Request body of POST /api/auth/email-login after zod validation. -/
structure EmailLoginRequest where
  email : String
  password : String
  deviceId : String
  deviceName : String
  platform : MobilePlatform
  osVersion : String
  appVersion : String
deriving DecidableEq

/-- Wire response of the email-login route: HTTP status plus the envelope
fields each return site writes. -/
structure LoginResponse where
  status : Nat
  success : Bool
  error : Option String := none
  token : Option String := none
deriving DecidableEq

/-- POST /api/auth/email-login.  `rateOk` is the Upstash limiter verdict,
`bcryptCompare` models `bcrypt.compare`, `mkToken` the JWT `sign` call, `now`
the clock, and `newDevId`/`newSubId` database-assigned row ids. -/
def emailLoginPost (db : DB) (rateOk : Bool) (req : EmailLoginRequest)
    (bcryptCompare : String → String → Bool) (mkToken : String → String → String)
    (now : Int) (newDevId : String) : LoginResponse × DB :=
  if !rateOk then
    ({ status := 429, success := false, error := some "Too many login attempts" }, db)
  else
  match db.users.find? (fun u => u.email == req.email) with
  | none =>
    ({ status := 401, success := false, error := some "Invalid email or password" }, db)
  | some user =>
    match user.passwordHash with
    | none =>
      ({ status := 401, success := false, error := some "Invalid email or password" }, db)
    | some passwordHash =>
      if !bcryptCompare req.password passwordHash then
        ({ status := 401, success := false, error := some "Invalid email or password" }, db)
      else
      -- device upsert on the unique key deviceId (update branch touches
      -- lastSeen/osVersion/appVersion only)
      let devPair : Device × List Device :=
        match db.devices.find? (fun d => d.deviceId == req.deviceId) with
        | some d =>
          let upd : Device :=
            { d with lastSeen := now, osVersion := req.osVersion,
                     appVersion := req.appVersion }
          (upd, db.devices.map (fun x =>
            if x.deviceId == req.deviceId then
              { x with lastSeen := now, osVersion := req.osVersion,
                       appVersion := req.appVersion }
            else x))
        | none =>
          let created : Device :=
            { id := newDevId, deviceId := req.deviceId, userId := user.id,
              deviceName := req.deviceName, platform := req.platform,
              osVersion := req.osVersion, appVersion := req.appVersion,
              lastSeen := now, isActive := true }
          (created, db.devices ++ [created])
      let device := devPair.1
      let subs2 : List Subscription :=
        match db.subscriptions.find? (fun s =>
            s.userId == user.id && (s.status == "active" || s.status == "trial")) with
        | some _ => db.subscriptions
        | none => db.subscriptions ++
            [{ userId := user.id, tier := "free", status := "trial",
               platform := req.platform,
               trialEndsAt := some (now + 7 * 24 * 60 * 60 * 1000),
               currentPeriodStart := now,
               currentPeriodEnd := now + 7 * 24 * 60 * 60 * 1000 }]
      let token := mkToken user.id user.email
      let telemetry2 := db.telemetry ++
        [{ userId := user.id, eventType := "email_login",
           eventData := .emailLogin device.id req.platform }]
      ({ status := 200, success := true, token := some token },
       { db with devices := devPair.2, subscriptions := subs2,
                 telemetry := telemetry2 })

/-! ## Concrete fixtures used by witness and counterexample theorems -/

/-- A device row owned by user u1. -/
def sampleDevice : Device :=
  { id := "dev1", deviceId := "D1", userId := "u1", deviceName := "Pixel",
    platform := .android, osVersion := "14", appVersion := "1.0",
    lastSeen := 0, isActive := true }

/-- An active push token bound to sampleDevice. -/
def sampleToken : PushToken :=
  { id := "pt1", token := "tok1", deviceId := "dev1", platform := "fcm",
    isActive := true }

/-- A store with sampleDevice and its push token. -/
def sampleDb : DB := { devices := [sampleDevice], pushTokens := [sampleToken] }

/-- A ring command request for sampleDevice. -/
def sampleCmdReq : CommandRequest :=
  { deviceId := "dev1", commandType := .RING, metadata := {} }

/-- Push provider that delivers to every token. -/
def pushAllSuccess : PushToken → PushOutcome := fun _ => .success

/-- A LOCATE command for sampleDevice still in PENDING state. -/
def samplePendingLocate : AntiTheftCommand :=
  { id := "k1", deviceId := "dev1", commandType := .LOCATE,
    status := .PENDING, issuedBy := "u1", metadata := {} }

/-- A store with sampleDevice and a PENDING LOCATE command. -/
def sampleLocDb : DB := { devices := [sampleDevice], commands := [samplePendingLocate] }

/-- A GPS fix payload. -/
def sampleFix : LocationFix :=
  { latitude := 37, longitude := -122, accuracy := 5, timestamp := "2026-01-01T00:00:00Z" }

/-- A location report targeting the PENDING LOCATE command. -/
def sampleLocReq : LocationRequest :=
  { deviceId := "dev1", commandId := "k1", fix := sampleFix }

/-- A latest-receipt entry expiring at 100 ms. -/
def entry100 : LatestReceiptEntry := { expiresDateMs := some 100 }

/-- A latest-receipt entry expiring at 200 ms. -/
def entry200 : LatestReceiptEntry := { expiresDateMs := some 200 }

/-- A production verifyReceipt response carrying two latest-receipt entries,
the first one expiring earlier than the second. -/
def sampleAppleProd : AppleResponse :=
  { status := 0, originalTransactionId := some "sub1",
    latestReceiptInfo := some [entry100, entry200] }

/-- A production verifyReceipt response reporting the sandbox redirect. -/
def sampleApple21007 : AppleResponse := { status := 21007 }

/-- A sandbox verifyReceipt response with the same two entries. -/
def sampleAppleSandbox : AppleResponse :=
  { status := 0, originalTransactionId := some "sub1",
    latestReceiptInfo := some [entry100, entry200] }

/-- A SHA-256-length hash string (64 characters). -/
def hashA : String := String.mk (List.replicate 64 'a')

/-- A signature store holding hashA as an active HASH signature. -/
def sampleSigStore : List ThreatSignature :=
  [{ signature := hashA, type := .HASH, isActive := true,
     threatName := some "Trojan.Android.Generic", severity := some "CRITICAL",
     category := some "TROJAN" }]

/-- A reachable cache connection whose entry for hashA is stale: it was
cached before hashA was added to the signature store. -/
def staleConn : CacheConn :=
  { data := [(threatKey hashA, { hash := hashA, isThreat := false })],
    mgetFails := false, execFails := false }

/-- A cache connection whose single entry agrees with the store. -/
def coherentConn : CacheConn :=
  { data := [(threatKey hashA, storeLookup sampleSigStore hashA)],
    mgetFails := false, execFails := false }

/-- A cache service that is fully unavailable: both the MGET and the
pipeline EXEC fail. -/
def downConn : CacheConn := { data := [], mgetFails := true, execFails := true }

/-- A cache connection where only the MGET fails but the EXEC succeeds. -/
def mgetOnlyDownConn : CacheConn :=
  { data := [], mgetFails := true, execFails := false }

/-- A registration request by a second user claiming the deviceId and push
token already bound to user u1. -/
def crossUserReq : RegisterRequest :=
  { deviceId := "D1", deviceName := "Other", platform := .android,
    osVersion := "15", appVersion := "2.0", pushToken := some "tok1" }

/-- A second device row owned by the same user u1. -/
def sampleDevice2 : Device :=
  { id := "dev2", deviceId := "D2", userId := "u1", deviceName := "Tab",
    platform := .android, osVersion := "14", appVersion := "1.0",
    lastSeen := 0, isActive := true }

/-- A store with two devices of user u1. -/
def twoDevDb : DB := { devices := [sampleDevice, sampleDevice2] }

/-- First reported threat. -/
def threat1 : ThreatEntry :=
  { fileName := "f1", filePath := "p1", fileHash := "h1", threatName := "T1",
    severity := .high }

/-- Second reported threat. -/
def threat2 : ThreatEntry :=
  { fileName := "f2", filePath := "p2", fileHash := "h2", threatName := "T2",
    severity := .low }

/-- A scan report with two threats from device dev1. -/
def scanReq1 : ScanReport :=
  { deviceId := "dev1", scanType := .quick, status := .completed,
    filesScanned := 10, threatsFound := 2, startedAt := 0,
    completedAt := some 100, threats := some [threat1, threat2] }

/-- The same scan report, submitted from device dev2. -/
def scanReq2 : ScanReport := { scanReq1 with deviceId := "dev2" }

/-- Key-uniqueness helper: when the mapped keys of a list are nodup, equal
keys of members force equal members. -/
theorem key_inj {α β : Type} (key : α → β) (l : List α)
    (h : (l.map key).Nodup) {a b : α} (ha : a ∈ l) (hb : b ∈ l)
    (hk : key a = key b) : a = b :=
  List.inj_on_of_nodup_map h ha hb hk

/-- The JS reduce of the sandbox path returns an entry of the list whose
expiry (missing fields reading as 0) dominates every entry of the list. -/
theorem reduceLatest_greatest (x : LatestReceiptEntry) (xs : List LatestReceiptEntry) :
    ∃ e, reduceLatest (x :: xs) = some e ∧ e ∈ x :: xs ∧
      ∀ e2 ∈ x :: xs, e2.expiresDateMs.getD 0 ≤ e.expiresDateMs.getD 0 := by
  suffices h : ∀ (x : LatestReceiptEntry),
      (xs.foldl (fun latest current =>
          if current.expiresDateMs.getD 0 > latest.expiresDateMs.getD 0
          then current else latest) x = x ∨
        xs.foldl (fun latest current =>
          if current.expiresDateMs.getD 0 > latest.expiresDateMs.getD 0
          then current else latest) x ∈ xs) ∧
      x.expiresDateMs.getD 0 ≤ (xs.foldl (fun latest current =>
          if current.expiresDateMs.getD 0 > latest.expiresDateMs.getD 0
          then current else latest) x).expiresDateMs.getD 0 ∧
      ∀ e2 ∈ xs, e2.expiresDateMs.getD 0 ≤ (xs.foldl (fun latest current =>
          if current.expiresDateMs.getD 0 > latest.expiresDateMs.getD 0
          then current else latest) x).expiresDateMs.getD 0 by
    obtain ⟨hmem, hx, hall⟩ := h x
    refine ⟨_, rfl, ?_, ?_⟩
    · cases hmem with
      | inl he => rw [he]; exact List.mem_cons_self _ _
      | inr he => exact List.mem_cons_of_mem _ he
    · intro e2 he2
      cases List.mem_cons.mp he2 with
      | inl he => rw [he]; exact hx
      | inr he => exact hall e2 he
  induction xs with
  | nil => exact fun x => ⟨Or.inl rfl, Nat.le_refl _, fun e2 he2 => absurd he2 (by simp)⟩
  | cons y ys ih =>
    intro x
    obtain ⟨hmem, hx, hall⟩ := ih (if y.expiresDateMs.getD 0 > x.expiresDateMs.getD 0 then y else x)
    have hxy : x.expiresDateMs.getD 0 ≤
        (if y.expiresDateMs.getD 0 > x.expiresDateMs.getD 0 then y
         else x).expiresDateMs.getD 0 := by
      by_cases hcmp : y.expiresDateMs.getD 0 > x.expiresDateMs.getD 0
      · rw [if_pos hcmp]; exact Nat.le_of_lt hcmp
      · rw [if_neg hcmp]
    have hyy : y.expiresDateMs.getD 0 ≤
        (if y.expiresDateMs.getD 0 > x.expiresDateMs.getD 0 then y
         else x).expiresDateMs.getD 0 := by
      by_cases hcmp : y.expiresDateMs.getD 0 > x.expiresDateMs.getD 0
      · rw [if_pos hcmp]
      · rw [if_neg hcmp]; exact Nat.le_of_not_lt hcmp
    refine ⟨?_, Nat.le_trans hxy hx, ?_⟩
    · simp only [List.foldl_cons]
      cases hmem with
      | inl he =>
        rw [he]
        by_cases hcmp : y.expiresDateMs.getD 0 > x.expiresDateMs.getD 0
        · rw [if_pos hcmp]; exact Or.inr (List.mem_cons_self _ _)
        · rw [if_neg hcmp]; exact Or.inl rfl
      | inr he => exact Or.inr (List.mem_cons_of_mem _ he)
    · intro e2 he2
      simp only [List.foldl_cons]
      cases List.mem_cons.mp he2 with
      | inl he => rw [he]; exact Nat.le_trans hyy hx
      | inr he => exact hall e2 he

/-- Sliding-window acceptance: starting from entries `pre`, a run of requests
whose arrival times (together with `pre`) all lie within one window of each
other is accepted in full as long as the total count stays within the limit,
and the entry list afterwards holds exactly all arrival times. -/
theorem runRateLimit_accepts_all (window limit : Nat) :
    ∀ (ts pre : List Int),
      (∀ x ∈ pre ++ ts, ∀ y ∈ pre ++ ts, y - (window * 1000 : Nat) < x) →
      pre.length + ts.length ≤ limit →
      runRateLimit window limit pre ts = (pre ++ ts, List.replicate ts.length true) := by
  intro ts
  induction ts with
  | nil => intro pre _ _; simp [runRateLimit]
  | cons t ts2 ih =>
    intro pre hwin hlen
    have hkeep : pre.filter (fun s => !(0 ≤ s && s ≤ t - (window * 1000 : Nat))) = pre := by
      rw [List.filter_eq_self]
      intro s hs
      have hts : t - (window * 1000 : Nat) < s :=
        hwin s (by simp [hs]) t (by simp)
      simp
      omega
    have hcount : ¬(limit ≤ pre.length) := by
      simp only [List.length_cons] at hlen
      omega
    rw [runRateLimit]
    rw [rateLimitStep]
    simp only [hkeep, if_neg hcount]
    have hwin2 : ∀ x ∈ (pre ++ [t]) ++ ts2, ∀ y ∈ (pre ++ [t]) ++ ts2,
        y - (window * 1000 : Nat) < x := by
      intro x hx y hy
      refine hwin x ?_ y ?_ <;> simp at hx hy ⊢ <;> tauto
    have hlen2 : (pre ++ [t]).length + ts2.length ≤ limit := by
      simp only [List.length_append, List.length_cons, List.length_nil] at hlen ⊢
      omega
    rw [ih (pre ++ [t]) hwin2 hlen2]
    simp [List.replicate_succ]

/-- The cache split loop in closed form: cached results are the filterMap of
lookups over the batch, the uncached hashes the misses in batch order. -/
theorem splitCached_eq (cache : Cache) (hashes : List String) :
    splitCached cache hashes =
      (hashes.filterMap (fun h => cacheGet cache (threatKey h)),
       hashes.filter (fun h => (cacheGet cache (threatKey h)).isNone)) := by
  suffices h : ∀ (hs : List String) (acc : List ThreatResult × List String),
      hs.foldl
        (fun acc h =>
          match cacheGet cache (threatKey h) with
          | some r => (acc.1 ++ [r], acc.2)
          | none => (acc.1, acc.2 ++ [h]))
        acc =
      (acc.1 ++ hs.filterMap (fun h => cacheGet cache (threatKey h)),
       acc.2 ++ hs.filter (fun h => (cacheGet cache (threatKey h)).isNone)) by
    have h2 := h hashes ([], [])
    simpa [splitCached] using h2
  intro hs
  induction hs with
  | nil => intro acc; simp
  | cons h t ih =>
    intro acc
    simp only [List.foldl_cons]
    cases hcg : cacheGet cache (threatKey h) with
    | some r =>
      rw [ih]
      simp [List.filterMap_cons, List.filter_cons, hcg]
    | none =>
      rw [ih]
      simp [List.filterMap_cons, List.filter_cons, hcg]

/-- The store resolution of a hash always reports the hash itself. -/
theorem storeLookup_hash (store : List ThreatSignature) (h : String) :
    (storeLookup store h).hash = h := by
  rw [storeLookup]
  cases store.find? (fun s => s.signature == h && s.type == SigType.HASH && s.isActive) <;> rfl

/-- The store resolution of a hash reports isThreat exactly when the hash is
present in the store as an active HASH signature. -/
theorem storeLookup_isThreat (store : List ThreatSignature) (h : String) :
    (storeLookup store h).isThreat = inStore store h := by
  rw [storeLookup, inStore]
  cases hf : store.find? (fun s => s.signature == h && s.type == SigType.HASH && s.isActive) with
  | some t =>
    have hmem := List.mem_of_find?_eq_some hf
    have hp := List.find?_some hf
    exact (List.any_eq_true.mpr ⟨t, hmem, hp⟩).symm
  | none =>
    have hnone := List.find?_eq_none.mp hf
    simp only []
    symm
    rw [List.any_eq_false]
    intro s hs
    exact hnone s hs

/-- Conditional-update map commutes with find? when the predicate cannot
tell an updated row from the original. -/
theorem find?_map_upsert {α : Type} (u : α → α) (p k : α → Bool)
    (hpu : ∀ a, p (u a) = p a) (l : List α) :
    (l.map (fun x => if k x then u x else x)).find? p =
      (l.find? p).map (fun x => if k x then u x else x) := by
  rw [List.find?_map]
  have heq : (p ∘ fun x => if k x then u x else x) = p := by
    funext a
    by_cases hk : k a <;> simp [hk, hpu, Function.comp]
  rw [heq]

/-! ## Claim theorems -/

/-- C1: for every device-command request that passes rate limiting, device
ownership and the active-push-token check (i.e. the handler answers `ok`),
the created AntiTheftCommand row's final status is SENT when at least one
push delivery to the device's active tokens succeeded and FAILED when zero
succeeded; `n` is exactly the number of successful deliveries. -/
theorem anti_theft_command_final_status (db : DB) (rateOk : Bool) (userId : String)
    (req : CommandRequest) (newId : String) (push : PushToken → PushOutcome)
    (device : Device) (cid : String) (st : CommandStatus) (n : Nat) (db2 : DB)
    (hdev : findOwnedActiveDevice db userId req.deviceId = some device)
    (hrun : deviceCommandPost db rateOk userId req newId push = (.ok cid st n, db2)) :
    n = (activePushTokens db device.id).countP (fun t => push t == PushOutcome.success) ∧
    st = (if 0 < n then CommandStatus.SENT else CommandStatus.FAILED) ∧
    ∃ c ∈ db2.commands, c.id = newId ∧ c.status = st := by
  cases rateOk with
  | false => simp [deviceCommandPost] at hrun
  | true =>
    rw [deviceCommandPost] at hrun
    rw [hdev] at hrun
    simp only [Bool.not_true, if_neg (by simp : ¬((false : Bool) = true))] at hrun
    by_cases hemp : (activePushTokens db device.id).isEmpty
    · simp [hemp] at hrun
    · rw [if_neg (by simp [hemp])] at hrun
      simp only [Prod.mk.injEq, CommandResp.ok.injEq] at hrun
      obtain ⟨⟨hcid, hst, hn⟩, hdb⟩ := hrun
      refine ⟨hn.symm, ?_, ?_⟩
      · rw [← hst, ← hn]
      · refine ⟨{ id := newId, deviceId := device.id, commandType := req.commandType,
                  status := st, issuedBy := userId, metadata := req.metadata }, ?_, rfl, rfl⟩
        rw [← hdb]
        simp only [List.mem_map]
        refine ⟨{ id := newId, deviceId := device.id, commandType := req.commandType,
                  status := .PENDING, issuedBy := userId, metadata := req.metadata },
                by simp, ?_⟩
        simp [← hst]

/-- Witness for C1 at a concrete database: one device with one active token,
every delivery succeeding. -/
theorem anti_theft_command_final_status_witness :
    1 = (activePushTokens sampleDb "dev1").countP (fun t => pushAllSuccess t == PushOutcome.success) ∧
    CommandStatus.SENT = (if 0 < 1 then CommandStatus.SENT else CommandStatus.FAILED) ∧
    ∃ c ∈ (deviceCommandPost sampleDb true "u1" sampleCmdReq "c1" pushAllSuccess).2.commands,
      c.id = "c1" ∧ c.status = CommandStatus.SENT :=
  anti_theft_command_final_status sampleDb true "u1" sampleCmdReq "c1" pushAllSuccess
    sampleDevice "c1" .SENT 1
    (deviceCommandPost sampleDb true "u1" sampleCmdReq "c1" pushAllSuccess).2
    (by decide) (by decide)

/-- C3 counterexample: the location route transitions a LOCATE command that
is still PENDING (never SENT) to EXECUTED, because its command lookup filters
only on id, device and commandType, not on the current status. -/
theorem location_executes_pending_locate :
    (sampleLocDb.commands.find? (fun c => c.id == "k1")).map
        (fun c => c.status) = some CommandStatus.PENDING ∧
    ((locationPost sampleLocDb "u1" sampleLocReq 5).2.commands.find?
        (fun c => c.id == "k1")).map
        (fun c => c.status) = some CommandStatus.EXECUTED := by
  exact ⟨by decide, by decide⟩

/-- C3 amended: the location route sets EXECUTED on the targeted command
whenever it is a LOCATE command of the claimed device, regardless of its
current status (PENDING, SENT, FAILED or already EXECUTED); commands whose
type is not LOCATE are never transitioned, and the GPS fix is merged into
the existing metadata rather than replacing it. -/
theorem location_executed_only_locate (db : DB) (userId : String)
    (req : LocationRequest) (now : Int) (resp : LocationResp) (db2 : DB)
    (huniq : (db.commands.map (fun c => c.id)).Nodup)
    (hrun : locationPost db userId req now = (resp, db2)) :
    (∀ c2 ∈ db2.commands, c2.status = CommandStatus.EXECUTED →
      c2.commandType = CommandType.LOCATE ∨ c2 ∈ db.commands) ∧
    (∀ cid, resp = .ok cid →
      ∃ c ∈ db.commands, c.id = cid ∧ c.commandType = CommandType.LOCATE ∧
        ∃ c2 ∈ db2.commands, c2.id = cid ∧ c2.status = CommandStatus.EXECUTED ∧
          c2.metadata = { c.metadata with location := some req.fix }) := by
  rw [locationPost] at hrun
  split at hrun
  · simp only [Prod.mk.injEq] at hrun
    obtain ⟨hresp, hdb⟩ := hrun
    subst hdb
    refine ⟨fun c2 hc2 _ => Or.inr hc2, fun cid h => ?_⟩
    rw [← hresp] at h
    exact absurd h (by simp)
  · split at hrun
    · simp only [Prod.mk.injEq] at hrun
      obtain ⟨hresp, hdb⟩ := hrun
      subst hdb
      refine ⟨fun c2 hc2 _ => Or.inr hc2, fun cid h => ?_⟩
      rw [← hresp] at h
      exact absurd h (by simp)
    · next device _ command hc =>
      simp only [Prod.mk.injEq] at hrun
      obtain ⟨hresp, hdb⟩ := hrun
      have hcm : command ∈ db.commands := List.mem_of_find?_eq_some hc
      have hcp := List.find?_some hc
      simp only [findLocateCommand] at hc
      simp only [Bool.and_eq_true, beq_iff_eq] at hcp
      obtain ⟨⟨hcid, hcdev⟩, hctype⟩ := hcp
      constructor
      · intro c2 hc2 hst
        rw [← hdb] at hc2
        simp only [List.mem_map] at hc2
        obtain ⟨c, hcmem, hcupd⟩ := hc2
        by_cases hid : (c.id == command.id) = true
        · left
          have hceq : c = command := key_inj (fun x => x.id) db.commands huniq hcmem hcm
            (by simpa using hid)
          rw [← hcupd]
          simp [hid, hceq, hctype]
        · right
          rw [← hcupd]
          simp only [hid, if_neg]
          simpa [hid] using hcmem
      · intro cid h
        rw [← hresp] at h
        obtain rfl : command.id = cid := by
          cases h
          rfl
        refine ⟨command, hcm, rfl, hctype, ?_⟩
        refine ⟨{ command with
                    status := .EXECUTED
                    executedAt := some now
                    metadata := { command.metadata with location := some req.fix } },
                ?_, rfl, rfl, rfl⟩
        rw [← hdb]
        simp only [List.mem_map]
        exact ⟨command, hcm, by simp⟩

/-- Witness for the amended C3 theorem at the concrete PENDING LOCATE store. -/
theorem location_executed_only_locate_witness :
    (∀ c2 ∈ (locationPost sampleLocDb "u1" sampleLocReq 5).2.commands,
      c2.status = CommandStatus.EXECUTED →
      c2.commandType = CommandType.LOCATE ∨ c2 ∈ sampleLocDb.commands) ∧
    (∀ cid, (locationPost sampleLocDb "u1" sampleLocReq 5).1 = .ok cid →
      ∃ c ∈ sampleLocDb.commands, c.id = cid ∧ c.commandType = CommandType.LOCATE ∧
        ∃ c2 ∈ (locationPost sampleLocDb "u1" sampleLocReq 5).2.commands,
          c2.id = cid ∧ c2.status = CommandStatus.EXECUTED ∧
          c2.metadata = { c.metadata with location := some sampleLocReq.fix }) :=
  location_executed_only_locate sampleLocDb "u1" sampleLocReq 5
    (locationPost sampleLocDb "u1" sampleLocReq 5).1
    (locationPost sampleLocDb "u1" sampleLocReq 5).2
    (by decide) rfl

/-- C4: a device-registration request by one user naming a deviceId or a
push token already bound to a different user is rejected with 403, the
userId binding of every pre-existing device row is unchanged, and the push
token rows are untouched (the token transaction rolls back before any
rebinding). -/
theorem device_register_no_cross_user_rebinding (db : DB) (userId : String)
    (req : RegisterRequest) (now : Int) (newDevId newTokId : String)
    (resp : RegisterResp) (db2 : DB)
    (hrun : deviceRegisterPost db true userId req now newDevId newTokId = (resp, db2))
    (hconf :
      (∃ d, db.devices.find? (fun x => x.deviceId == req.deviceId) = some d ∧
        d.userId ≠ userId) ∨
      ((∀ d, db.devices.find? (fun x => x.deviceId == req.deviceId) = some d →
          d.userId = userId) ∧
        ∃ tok t od, req.pushToken = some tok ∧
          db.pushTokens.find? (fun x => x.token == tok) = some t ∧
          db.devices.find? (fun x => x.id == t.deviceId) = some od ∧
          od.userId ≠ userId)) :
    (resp = .deviceConflict ∨ resp = .tokenConflict) ∧
    RegisterResp.httpStatus resp = 403 ∧
    (∀ d ∈ db.devices, ∃ d2 ∈ db2.devices, d2.id = d.id ∧ d2.userId = d.userId) ∧
    db2.pushTokens = db.pushTokens := by
  rw [deviceRegisterPost] at hrun
  rw [if_neg (by simp)] at hrun
  rcases hconf with ⟨d, hfind, hne⟩ | ⟨hdevok, tok, t, od, hptok, htfind, hofind, hone⟩
  · simp only [hfind] at hrun
    rw [if_pos (by simpa [applyDeviceUpdate] using hne)] at hrun
    simp only [Prod.mk.injEq] at hrun
    obtain ⟨hresp, hdb⟩ := hrun
    refine ⟨Or.inl hresp.symm, by rw [← hresp]; rfl, ?_, by rw [← hdb]⟩
    intro dd hdd
    refine ⟨if dd.deviceId == req.deviceId then applyDeviceUpdate req now dd else dd,
      ?_, ?_, ?_⟩
    · rw [← hdb]
      exact List.mem_map_of_mem _ hdd
    · by_cases h : (dd.deviceId == req.deviceId) = true <;> simp [h, applyDeviceUpdate]
    · by_cases h : (dd.deviceId == req.deviceId) = true <;> simp [h, applyDeviceUpdate]
  · cases hfind : db.devices.find? (fun x => x.deviceId == req.deviceId) with
    | some d =>
      have hdu : d.userId = userId := hdevok d hfind
      simp only [hfind, hptok] at hrun
      rw [if_neg (by simp [applyDeviceUpdate, hdu])] at hrun
      simp only [htfind, Option.bind_eq_bind, Option.some_bind] at hrun
      have howner : (db.devices.map (fun x =>
          if x.deviceId == req.deviceId then applyDeviceUpdate req now x else x)).find?
            (fun x => x.id == t.deviceId) =
          some (if od.deviceId == req.deviceId then applyDeviceUpdate req now od else od) := by
        rw [find?_map_upsert (applyDeviceUpdate req now) (fun x => x.id == t.deviceId)
          (fun x => x.deviceId == req.deviceId) (fun a => rfl) db.devices]
        rw [hofind]
        rfl
      rw [howner] at hrun
      rw [if_pos (by by_cases h : (od.deviceId == req.deviceId) = true <;>
        simp [h, applyDeviceUpdate, hone])] at hrun
      simp only [Prod.mk.injEq] at hrun
      obtain ⟨hresp, hdb⟩ := hrun
      refine ⟨Or.inr hresp.symm, by rw [← hresp]; rfl, ?_, by rw [← hdb]⟩
      intro dd hdd
      refine ⟨if dd.deviceId == req.deviceId then applyDeviceUpdate req now dd else dd,
        ?_, ?_, ?_⟩
      · rw [← hdb]
        exact List.mem_map_of_mem _ hdd
      · by_cases h : (dd.deviceId == req.deviceId) = true <;> simp [h, applyDeviceUpdate]
      · by_cases h : (dd.deviceId == req.deviceId) = true <;> simp [h, applyDeviceUpdate]
    | none =>
      simp only [hfind, hptok] at hrun
      rw [if_neg (by simp)] at hrun
      simp only [htfind, Option.bind_eq_bind, Option.some_bind] at hrun
      have howner : (db.devices ++
          [({ id := newDevId, deviceId := req.deviceId, userId := userId,
              deviceName := req.deviceName, platform := req.platform,
              osVersion := req.osVersion, appVersion := req.appVersion,
              lastSeen := now, isActive := true } : Device)]).find?
            (fun x => x.id == t.deviceId) = some od := by
        rw [List.find?_append, hofind]
        rfl
      rw [howner] at hrun
      rw [if_pos (by simpa using hone)] at hrun
      simp only [Prod.mk.injEq] at hrun
      obtain ⟨hresp, hdb⟩ := hrun
      refine ⟨Or.inr hresp.symm, by rw [← hresp]; rfl, ?_, by rw [← hdb]⟩
      intro dd hdd
      refine ⟨dd, ?_, rfl, rfl⟩
      rw [← hdb]
      exact List.mem_append_left _ hdd

/-- Witness for C4: user u2 attempts to claim device D1 owned by u1. -/
theorem device_register_no_cross_user_rebinding_witness :
    ((deviceRegisterPost sampleDb true "u2" crossUserReq 9 "nd" "nt").1 = .deviceConflict ∨
      (deviceRegisterPost sampleDb true "u2" crossUserReq 9 "nd" "nt").1 = .tokenConflict) ∧
    RegisterResp.httpStatus (deviceRegisterPost sampleDb true "u2" crossUserReq 9 "nd" "nt").1 = 403 ∧
    (∀ d ∈ sampleDb.devices,
      ∃ d2 ∈ (deviceRegisterPost sampleDb true "u2" crossUserReq 9 "nd" "nt").2.devices,
        d2.id = d.id ∧ d2.userId = d.userId) ∧
    (deviceRegisterPost sampleDb true "u2" crossUserReq 9 "nd" "nt").2.pushTokens =
      sampleDb.pushTokens :=
  device_register_no_cross_user_rebinding sampleDb "u2" crossUserReq 9 "nd" "nt"
    (deviceRegisterPost sampleDb true "u2" crossUserReq 9 "nd" "nt").1
    (deviceRegisterPost sampleDb true "u2" crossUserReq 9 "nd" "nt").2
    rfl (Or.inl ⟨sampleDevice, by decide, by decide⟩)

/-- C2 counterexample: a hash present in the signature store as an active
HASH signature is reported with isThreat false when the cache holds a stale
negative entry for it — the cache path is trusted blindly and never
re-checked against the store. -/
theorem hash_check_stale_cache_disagrees :
    inStore sampleSigStore hashA = true ∧
    hashCheckPost staleConn sampleSigStore [hashA] =
      .ok { results := [{ hash := hashA, isThreat := false }],
            scanned := 1, threatsFound := 0 } := by
  exact ⟨by decide, by decide⟩

/-- C2 amended: the cache path and the store path agree on every hash of a
batch provided every cache entry consulted for the batch agrees with the
current store (which holds when no signature changed since the entry was
written); under that coherence assumption every hash in the batch gets a
result, and a result reports isThreat exactly when its hash is an active
HASH signature in the store.  A stale entry is served as-is, so without the
assumption cache and store can disagree until the entry expires. -/
theorem hash_check_agrees_when_cache_coherent (conn : CacheConn)
    (store : List ThreatSignature) (hashes : List String)
    (hm : conn.mgetFails = false) (he : conn.execFails = false)
    (hcoh : ∀ h ∈ hashes,
      cacheGet conn.data (threatKey h) = none ∨
      cacheGet conn.data (threatKey h) = some (storeLookup store h)) :
    ∃ data : HashCheckData, hashCheckPost conn store hashes = .ok data ∧
      (∀ r ∈ data.results, r.isThreat = inStore store r.hash) ∧
      (∀ h ∈ hashes, ∃ r ∈ data.results, r.hash = h) := by
  have hcached : ∀ r ∈ hashes.filterMap (fun h => cacheGet conn.data (threatKey h)),
      r.isThreat = inStore store r.hash := by
    intro r hr
    obtain ⟨h, hh, hcg⟩ := List.mem_filterMap.mp hr
    rcases hcoh h hh with hnone | hsome
    · rw [hnone] at hcg; cases hcg
    · rw [hsome] at hcg
      obtain rfl : storeLookup store h = r := by injection hcg
      rw [storeLookup_isThreat, storeLookup_hash]
  have hmapped : ∀ r ∈ (hashes.filter
        (fun h => (cacheGet conn.data (threatKey h)).isNone)).map (storeLookup store),
      r.isThreat = inStore store r.hash := by
    intro r hr
    obtain ⟨h, _, rfl⟩ := List.mem_map.mp hr
    rw [storeLookup_isThreat, storeLookup_hash]
  by_cases hup : (hashes.filter
      (fun h => (cacheGet conn.data (threatKey h)).isNone)).length > 0
  · refine ⟨⟨hashes.filterMap (fun h => cacheGet conn.data (threatKey h)) ++
        (hashes.filter (fun h => (cacheGet conn.data (threatKey h)).isNone)).map
        (storeLookup store),
      hashes.length,
      (hashes.filterMap (fun h => cacheGet conn.data (threatKey h)) ++
        (hashes.filter (fun h => (cacheGet conn.data (threatKey h)).isNone)).map
        (storeLookup store)).countP (fun r => r.isThreat)⟩, ?_, ?_, ?_⟩
    · rw [hashCheckPost, hm, splitCached_eq]
      simp only [Bool.false_eq_true, if_false, if_pos hup, he]
    · intro r hr
      rcases List.mem_append.mp hr with hr1 | hr2
      · exact hcached r hr1
      · exact hmapped r hr2
    · intro h hh
      rcases hcoh h hh with hnone | hsome
      · refine ⟨storeLookup store h, ?_, storeLookup_hash store h⟩
        refine List.mem_append.mpr (Or.inr ?_)
        exact List.mem_map.mpr ⟨h, List.mem_filter.mpr ⟨hh, by simp [hnone]⟩, rfl⟩
      · refine ⟨storeLookup store h, ?_, storeLookup_hash store h⟩
        refine List.mem_append.mpr (Or.inl ?_)
        exact List.mem_filterMap.mpr ⟨h, hh, hsome⟩
  · refine ⟨⟨hashes.filterMap (fun h => cacheGet conn.data (threatKey h)),
      hashes.length,
      (hashes.filterMap (fun h => cacheGet conn.data (threatKey h))).countP
        (fun r => r.isThreat)⟩, ?_, ?_, ?_⟩
    · rw [hashCheckPost, hm, splitCached_eq]
      simp only [Bool.false_eq_true, if_false, if_neg hup]
    · exact hcached
    · intro h hh
      rcases hcoh h hh with hnone | hsome
      · exact absurd (List.length_pos.mpr (List.ne_nil_of_mem
          (List.mem_filter.mpr ⟨hh, by simp [hnone]⟩))) hup
      · refine ⟨storeLookup store h, ?_, storeLookup_hash store h⟩
        exact List.mem_filterMap.mpr ⟨h, hh, hsome⟩

/-- Witness for the amended C2 theorem: a coherent cache entry for hashA. -/
theorem hash_check_agrees_when_cache_coherent_witness :
    ∃ data : HashCheckData, hashCheckPost coherentConn sampleSigStore [hashA] = .ok data ∧
      (∀ r ∈ data.results, r.isThreat = inStore sampleSigStore r.hash) ∧
      (∀ h ∈ [hashA], ∃ r ∈ data.results, r.hash = h) :=
  hash_check_agrees_when_cache_coherent coherentConn sampleSigStore [hashA]
    rfl rfl (by decide)

/-- C7 counterexample: when the cache service is unavailable, the failing
MGET is caught and every hash is resolved from the store, but the later
`pipeline.exec()` write-back has no guard, so the request aborts to the
outer catch and answers 500 instead of completing successfully. -/
theorem hash_check_cache_down_returns_500 :
    hashCheckPost downConn sampleSigStore [hashA] = .serverError 500 := by
  decide

/-- C7 amended: if the cache lookup (MGET) errors but the cache write-back
(pipeline EXEC) still succeeds, every hash of the batch is resolved directly
from the signature store and the request completes with a successful
response holding one result per hash, in batch order, each agreeing with the
store; if the cache is down for the write-back as well, the handler returns
500 instead. -/
theorem hash_check_mget_failure_degrades (conn : CacheConn)
    (store : List ThreatSignature) (hashes : List String)
    (hm : conn.mgetFails = true) (he : conn.execFails = false)
    (hne : hashes ≠ []) :
    hashCheckPost conn store hashes =
      .ok ⟨hashes.map (storeLookup store), hashes.length,
        (hashes.map (storeLookup store)).countP (fun r => r.isThreat)⟩ ∧
    (hashes.map (storeLookup store)).length = hashes.length ∧
    (∀ h ∈ hashes, ∃ r ∈ hashes.map (storeLookup store),
      r.hash = h ∧ r.isThreat = inStore store h) := by
  refine ⟨?_, List.length_map _ _, ?_⟩
  · rw [hashCheckPost, hm, he]
    have hlen : hashes.length > 0 := List.length_pos.mpr hne
    simp only [if_pos, if_true, hlen, List.nil_append, Bool.false_eq_true, if_false]
  · intro h hh
    refine ⟨storeLookup store h, List.mem_map.mpr ⟨h, hh, rfl⟩,
      storeLookup_hash store h, storeLookup_isThreat store h⟩

/-- Witness for the amended C7 theorem: MGET down, EXEC up, one hash in the
batch, resolved from the store. -/
theorem hash_check_mget_failure_degrades_witness :
    hashCheckPost mgetOnlyDownConn sampleSigStore [hashA] =
      .ok ⟨[hashA].map (storeLookup sampleSigStore), ([hashA] : List String).length,
        ([hashA].map (storeLookup sampleSigStore)).countP (fun r => r.isThreat)⟩ ∧
    ([hashA].map (storeLookup sampleSigStore)).length = ([hashA] : List String).length ∧
    (∀ h ∈ [hashA], ∃ r ∈ [hashA].map (storeLookup sampleSigStore),
      r.hash = h ∧ r.isThreat = inStore sampleSigStore h) :=
  hash_check_mget_failure_degrades mgetOnlyDownConn sampleSigStore [hashA]
    rfl rfl (by decide)

/-- C5 counterexample: on the production path verifyAppleReceipt returns the
expiry of the FIRST latest-receipt entry, not of the entry with the greatest
`expires_date_ms`: with entries expiring at 100 and 200 it returns 100. -/
theorem apple_production_takes_first_entry :
    (verifyAppleReceipt sampleAppleProd none).expiryDate = some 100 ∧
    specGreatestExpiry [entry100, entry200] = 200 ∧
    (verifyAppleReceipt sampleAppleProd none).expiryDate ≠
      some (specGreatestExpiry [entry100, entry200]) := by
  exact ⟨by decide, by decide, by decide⟩

/-- C5 amended: the greatest-expiry reduction of latest-receipt entries is
applied only on the sandbox retry path (production status 21007); the
production path takes the first entry of `latest_receipt_info` as returned
by the vendor. -/
theorem apple_expiry_reduction_paths (prodData sbData sd : AppleResponse)
    (anySandbox : Option AppleResponse)
    (y : LatestReceiptEntry) (ys : List LatestReceiptEntry)
    (x : LatestReceiptEntry) (xs : List LatestReceiptEntry)
    (hpst : (prodData.status == 21007) = false)
    (hpinfo : prodData.latestReceiptInfo = some (y :: ys))
    (hsst : sbData.status = 21007)
    (hsdinfo : sd.latestReceiptInfo = some (x :: xs)) :
    (verifyAppleReceipt prodData anySandbox).expiryDate = y.expiresDateMs ∧
    ∃ e ∈ x :: xs,
      (verifyAppleReceipt sbData (some sd)).expiryDate = e.expiresDateMs ∧
      ∀ e2 ∈ x :: xs, e2.expiresDateMs.getD 0 ≤ e.expiresDateMs.getD 0 := by
  constructor
  · rw [verifyAppleReceipt.eq_def, if_neg (by simp [hpst]), hpinfo]
    rfl
  · obtain ⟨e, hred, hmem, hmax⟩ := reduceLatest_greatest x xs
    refine ⟨e, hmem, ?_, hmax⟩
    rw [verifyAppleReceipt.eq_def, if_pos (by simp [hsst])]
    show (verifyAppleSandbox sd).expiryDate = e.expiresDateMs
    rw [verifyAppleSandbox.eq_def]
    rw [hsdinfo]
    simp [hred]

/-- Witness for the amended C5 theorem on the two concrete vendor responses. -/
theorem apple_expiry_reduction_paths_witness :
    (verifyAppleReceipt sampleAppleProd none).expiryDate = entry100.expiresDateMs ∧
    ∃ e ∈ [entry100, entry200],
      (verifyAppleReceipt sampleApple21007 (some sampleAppleSandbox)).expiryDate =
        e.expiresDateMs ∧
      ∀ e2 ∈ [entry100, entry200],
        e2.expiresDateMs.getD 0 ≤ e.expiresDateMs.getD 0 :=
  apple_expiry_reduction_paths sampleAppleProd sampleApple21007 sampleAppleSandbox
    none entry100 [entry200] entry100 [entry200]
    (by decide) rfl rfl rfl

/-- C6: with limit N and window W seconds, N requests arriving within one
window are all accepted, the (N+1)th request arriving within the same window
is rejected (`success = false`, and the device-command handler then responds
429), and a request made after the window has elapsed since all earlier
requests succeeds again. -/
theorem rate_limit_window_behavior (window limit : Nat) (ts : List Int) (t t2 : Int)
    (db : DB) (userId : String) (req : CommandRequest) (newId : String)
    (push : PushToken → PushOutcome)
    (hpos : 0 < limit)
    (hlen : ts.length = limit)
    (hwin : ∀ x ∈ ts ++ [t], ∀ y ∈ ts ++ [t], y - (window * 1000 : Nat) < x)
    (hrec : ∀ s ∈ ts, 0 ≤ s ∧ s ≤ t2 - (window * 1000 : Nat)) :
    runRateLimit window limit [] ts = (ts, List.replicate limit true) ∧
    (rateLimitStep ts t window limit).2.1 = false ∧
    (deviceCommandPost db (rateLimitStep ts t window limit).2.1 userId req newId push).1
      = CommandResp.rateLimited ∧
    CommandResp.httpStatus .rateLimited = 429 ∧
    (rateLimitStep ts t2 window limit).2.1 = true := by
  have hall : runRateLimit window limit [] ts = (ts, List.replicate ts.length true) := by
    have h := runRateLimit_accepts_all window limit ts []
    simp only [List.nil_append, List.length_nil] at h
    exact h (fun x hx y hy => hwin x (by simp [hx]) y (by simp [hy])) (by omega)
  have hreject : (rateLimitStep ts t window limit).2.1 = false := by
    rw [rateLimitStep]
    have hkeep : ts.filter (fun s => !(0 ≤ s && s ≤ t - (window * 1000 : Nat))) = ts := by
      rw [List.filter_eq_self]
      intro s hs
      have hts : t - (window * 1000 : Nat) < s :=
        hwin s (by simp [hs]) t (by simp)
      simp
      omega
    rw [hkeep] at *
    simp [hkeep, hlen]
  have haccept : (rateLimitStep ts t2 window limit).2.1 = true := by
    have hdrop : ts.filter (fun s => !(0 ≤ s && s ≤ t2 - (window * 1000 : Nat))) = [] := by
      rw [List.filter_eq_nil_iff]
      intro s hs
      obtain ⟨h0, hle⟩ := hrec s hs
      simp
      omega
    rw [rateLimitStep, hdrop]
    simp [Nat.not_le.mpr hpos]
  refine ⟨by rw [hall, hlen], hreject, ?_, rfl, haccept⟩
  rw [hreject]
  simp [deviceCommandPost]

/-- Witness for C6: limit 2, window 60 s, two requests at 1000 ms and
2000 ms, a third at 3000 ms, and a retry at 70000 ms. -/
theorem rate_limit_window_behavior_witness :
    runRateLimit 60 2 [] [1000, 2000] = ([1000, 2000], List.replicate 2 true) ∧
    (rateLimitStep [1000, 2000] 3000 60 2).2.1 = false ∧
    (deviceCommandPost sampleDb (rateLimitStep [1000, 2000] 3000 60 2).2.1 "u1"
        sampleCmdReq "c1" pushAllSuccess).1 = CommandResp.rateLimited ∧
    CommandResp.httpStatus .rateLimited = 429 ∧
    (rateLimitStep [1000, 2000] 70000 60 2).2.1 = true :=
  rate_limit_window_behavior 60 2 [1000, 2000] 3000 70000 sampleDb "u1"
    sampleCmdReq "c1" pushAllSuccess (by decide) rfl
    (by decide) (by decide)

/-- C8 counterexample: a scan report with two threats creates two quarantine
rows referencing the reporting device and one telemetry row, but the
telemetry row does NOT reference the reporting device: its eventData holds
only scan statistics, so two reports differing only in the reporting device
produce identical telemetry rows. -/
theorem scan_report_telemetry_lacks_device :
    sampleDevice.id ≠ sampleDevice2.id ∧
    (scanReportPost twoDevDb "u1" scanReq1 0 "sl1" (fun _ => "uu")).2.quarantines.length = 2 ∧
    (∀ q ∈ (scanReportPost twoDevDb "u1" scanReq1 0 "sl1" (fun _ => "uu")).2.quarantines,
      q.deviceId = sampleDevice.id) ∧
    (scanReportPost twoDevDb "u1" scanReq1 0 "sl1" (fun _ => "uu")).2.telemetry.length = 1 ∧
    (scanReportPost twoDevDb "u1" scanReq1 0 "sl1" (fun _ => "uu")).2.telemetry =
      (scanReportPost twoDevDb "u1" scanReq2 0 "sl1" (fun _ => "uu")).2.telemetry := by
  refine ⟨by decide, by decide, by decide, by decide, by decide⟩

/-- C8 amended: a scan report with device ownership verified and threats
list `ts` creates exactly one ScanLog row and `ts.length` Quarantine rows,
all referencing the reporting device, and exactly one TelemetryLog row that
references the reporting user and carries only scan statistics — no device
reference. -/
theorem scan_report_rows (db : DB) (userId : String) (req : ScanReport)
    (now : Int) (newScanLogId : String) (uuid : Nat → String)
    (device : Device) (db2 : DB) (ts : List ThreatEntry)
    (hdev : db.devices.find? (fun d => d.id == req.deviceId && d.userId == userId) =
      some device)
    (hts : req.threats = some ts)
    (hrun : scanReportPost db userId req now newScanLogId uuid = (.ok newScanLogId, db2)) :
    db2.quarantines.length = db.quarantines.length + ts.length ∧
    (∀ q ∈ db2.quarantines, q ∈ db.quarantines ∨ q.deviceId = device.id) ∧
    db2.scanLogs.length = db.scanLogs.length + 1 ∧
    (∀ sl ∈ db2.scanLogs, sl ∈ db.scanLogs ∨ sl.deviceId = device.id) ∧
    db2.telemetry.length = db.telemetry.length + 1 ∧
    (∀ tl ∈ db2.telemetry, tl ∈ db.telemetry ∨
      (tl.userId = userId ∧ ∃ dur, tl.eventData =
        .scanCompleted req.scanType req.filesScanned req.threatsFound dur)) := by
  rw [scanReportPost] at hrun
  rw [hdev] at hrun
  simp only [hts] at hrun
  split at hrun
  · simp at hrun
  · simp only [Prod.mk.injEq] at hrun
    obtain ⟨-, hdb⟩ := hrun
    subst hdb
    have hqlen : (if ts.length > 0 then
        ts.enum.map (fun p => mkQuarantine device.id (uuid p.1) p.2) else []).length =
        ts.length := by
      by_cases h : ts.length > 0
      · simp [h]
      · simp only [if_neg h, List.length_nil]
        omega
    refine ⟨?_, ?_, ?_, ?_, ?_, ?_⟩
    · simp [hqlen]
    · intro q hq
      rcases List.mem_append.mp hq with hq1 | hq2
      · exact Or.inl hq1
      · right
        split at hq2
        · obtain ⟨p, _, rfl⟩ := List.mem_map.mp hq2
          rfl
        · exact absurd hq2 (by simp)
    · simp
    · intro sl hsl
      rcases List.mem_append.mp hsl with hs1 | hs2
      · exact Or.inl hs1
      · right
        obtain rfl : sl = _ := List.mem_singleton.mp hs2
        rfl
    · simp
    · intro tl htl
      rcases List.mem_append.mp htl with ht1 | ht2
      · exact Or.inl ht1
      · right
        obtain rfl : tl = _ := List.mem_singleton.mp ht2
        exact ⟨rfl, req.completedAt.getD now - req.startedAt, rfl⟩

/-- Witness for the amended C8 theorem at the concrete two-threat report. -/
theorem scan_report_rows_witness :
    (scanReportPost twoDevDb "u1" scanReq1 0 "sl1" (fun _ => "uu")).2.quarantines.length =
      twoDevDb.quarantines.length + ([threat1, threat2] : List ThreatEntry).length ∧
    (∀ q ∈ (scanReportPost twoDevDb "u1" scanReq1 0 "sl1" (fun _ => "uu")).2.quarantines,
      q ∈ twoDevDb.quarantines ∨ q.deviceId = sampleDevice.id) ∧
    (scanReportPost twoDevDb "u1" scanReq1 0 "sl1" (fun _ => "uu")).2.scanLogs.length =
      twoDevDb.scanLogs.length + 1 ∧
    (∀ sl ∈ (scanReportPost twoDevDb "u1" scanReq1 0 "sl1" (fun _ => "uu")).2.scanLogs,
      sl ∈ twoDevDb.scanLogs ∨ sl.deviceId = sampleDevice.id) ∧
    (scanReportPost twoDevDb "u1" scanReq1 0 "sl1" (fun _ => "uu")).2.telemetry.length =
      twoDevDb.telemetry.length + 1 ∧
    (∀ tl ∈ (scanReportPost twoDevDb "u1" scanReq1 0 "sl1" (fun _ => "uu")).2.telemetry,
      tl ∈ twoDevDb.telemetry ∨
      (tl.userId = "u1" ∧ ∃ dur, tl.eventData =
        .scanCompleted scanReq1.scanType scanReq1.filesScanned scanReq1.threatsFound dur)) :=
  scan_report_rows twoDevDb "u1" scanReq1 0 "sl1" (fun _ => "uu") sampleDevice
    (scanReportPost twoDevDb "u1" scanReq1 0 "sl1" (fun _ => "uu")).2
    [threat1, threat2] (by decide) rfl rfl

/-- C9: there are inputs to POST /api/url/classify for which the handler
produces no response at all: a missing Safe Browsing API key (thrown by
classifyUrlWithThreatIntel before its internal try), an auth failure (whose
message does not contain the substring Unauthorized), and a schema-validation
failure all fall through the catch block without a return. -/
theorem url_classify_no_response :
    urlClassifyPost (.ok ()) (.ok "https://example.com") none FetchOutcome.noMatches = none ∧
    urlClassifyPost (.error "Missing or invalid authorization header")
      (.ok "https://example.com") (some "key") FetchOutcome.noMatches = none ∧
    urlClassifyPost (.ok ()) (.error "Invalid request data") (some "key")
      FetchOutcome.noMatches = none := by
  refine ⟨by decide, by decide, by decide⟩

/-- C10: every email-login request that fails authentication — unknown email,
account without a stored password hash, or password mismatch — receives the
identical response: 401 with success false and error message
"Invalid email or password", and the store is left unchanged; so the response
reveals neither which check failed nor whether the email is registered. -/
theorem email_login_auth_failures_indistinguishable (db : DB)
    (req : EmailLoginRequest) (bcryptCompare : String → String → Bool)
    (mkToken : String → String → String) (now : Int) (newDevId : String)
    (hfail :
      db.users.find? (fun u => u.email == req.email) = none ∨
      (∃ u, db.users.find? (fun v => v.email == req.email) = some u ∧
        u.passwordHash = none) ∨
      (∃ u ph, db.users.find? (fun v => v.email == req.email) = some u ∧
        u.passwordHash = some ph ∧ bcryptCompare req.password ph = false)) :
    emailLoginPost db true req bcryptCompare mkToken now newDevId =
      ({ status := 401, success := false, error := some "Invalid email or password",
         token := none }, db) := by
  rcases hfail with hnone | ⟨u, hu, hph⟩ | ⟨u, ph, hu, hph, hbc⟩
  · simp [emailLoginPost, hnone]
  · simp [emailLoginPost, hu, hph]
  · simp [emailLoginPost, hu, hph, hbc]

/-- Witness for C10: a store whose only user has no password hash. -/
theorem email_login_auth_failures_indistinguishable_witness :
    emailLoginPost { users := [{ id := "u1", email := "a", passwordHash := none }] } true
      { email := "a", password := "p", deviceId := "D1", deviceName := "n",
        platform := .android, osVersion := "14", appVersion := "1.0" }
      (fun _ _ => false) (fun _ _ => "jwt") 0 "dv" =
      ({ status := 401, success := false, error := some "Invalid email or password",
         token := none },
       { users := [{ id := "u1", email := "a", passwordHash := none }] }) :=
  email_login_auth_failures_indistinguishable
    { users := [{ id := "u1", email := "a", passwordHash := none }] }
    { email := "a", password := "p", deviceId := "D1", deviceName := "n",
      platform := .android, osVersion := "14", appVersion := "1.0" }
    (fun _ _ => false) (fun _ _ => "jwt") 0 "dv"
    (Or.inr (Or.inl ⟨{ id := "u1", email := "a", passwordHash := none }, by decide, rfl⟩))

end JustSec
